import Mathlib

/-!
Verification development for the `simple_openid_connect` OpenID-Connect
relying-party library.

The definitions below are a shallow embedding of the Python sources:

* `src/simple_openid_connect/data.py` (ID-Token claim validation,
  `TokenRequest` grant-type validation),
* `src/simple_openid_connect/flows/authorization_code_flow/__init__.py`
  (`handle_authentication_result`, `exchange_code_for_tokens`),
* `src/simple_openid_connect/client.py` (`OpenidClient.__init__` client
  authentication selection),
* `src/simple_openid_connect/pkce.py` (PKCE verifier/challenge generation),
* `src/simple_openid_connect/base_data.py` (message codec).

Conventions used throughout the embedding:

* Python exceptions become `Except` values; `raise ValidationError(msg)`
  is `Except.error ⟨msg⟩`.
* POSIX timestamps (`time.time()`, `exp`, `iat`, `min_iat`, ...) are
  modelled as `Int`; the current time is passed explicitly as `now`.
* Randomness (`secrets.token_urlsafe`) and the network
  (`requests.post`) are passed as explicit arguments.
* `Union[str, List[str]]` fields use the sum type `StrOrList`.
-/

/-- Python value of type `Union[str, List[str]]`, used for the `aud` claim. -/
inductive StrOrList where
  | str (s : String)
  | list (l : List String)
deriving DecidableEq, Repr

/-- Exception type of `simple_openid_connect.exceptions.ValidationError`,
carrying its human-readable message. -/
structure ValidationError where
  msg : String
deriving DecidableEq, Repr

/-- Embedding of `simple_openid_connect.utils.validate_that`: raise a
`ValidationError` with the given message when the condition is false. -/
def validate_that (condition : Bool) (msg : String) : Except ValidationError Unit :=
  if condition then .ok () else .error ⟨msg⟩

/-- Embedding of the claim set of `simple_openid_connect.data.IdToken`.
Only the spec-defined claims are modelled; extra claims are irrelevant to
`validate_extern`, which never touches them. -/
structure IdToken where
  iss : String
  sub : String
  aud : StrOrList
  exp : Int
  iat : Int
  auth_time : Option Int := none
  nonce : Option String := none
  acr : Option String := none
  amr : Option (List String) := none
  azp : Option String := none
  sid : Option String := none
deriving DecidableEq, Repr

/-- Embedding of `IdToken.validate_extern` from
`src/simple_openid_connect/data.py`, translated check by check and in the
same order.  `now` stands for `time.time()` and `validate_acr` for the
optional acr-validation callback. -/
def IdToken.validate_extern (self : IdToken) (now : Int) (issuer : String)
    (client_id : String) (nonce : Option String := none)
    (extra_trusted_audiences : List String := []) (min_iat : Int := 0)
    (validate_acr : Option (String → Except ValidationError Unit) := none)
    (min_auth_time : Int := 0) : Except ValidationError Unit := do
  -- 2. validate issuer
  validate_that (self.iss == issuer) "ID-Token was issued from unexpected issuer"
  -- 3. validate audience
  (match self.aud with
   | .str a =>
       validate_that (a == client_id)
         "ID-Token\x27s audience does not contain own client_id"
   | .list l => do
       validate_that (l.contains client_id)
         "ID-Token\x27s audience does not contain own client_id"
       validate_that (l.all fun i => extra_trusted_audiences.contains i)
         "Not all of the ID-Token\x27s audience are trusted")
  -- 4. validate that an azp claim is present if required
  (match self.aud with
   | .list l =>
       if l.length > 1 then
         validate_that self.azp.isSome
           "ID-Token does not contain azp claim but is required to because it is issued to more than 1 audience"
       else pure ()
   | .str _ => pure ())
  -- 5. validate azp claim value
  (match self.azp with
   | some azp =>
       validate_that (azp == client_id)
         "The ID-Token was not issued to this client (azp claim mismatch)"
   | none => pure ())
  -- 9. validate expiry
  validate_that (decide (now < self.exp)) "The ID-Token is expired"
  -- 10. validate iat
  validate_that (decide (min_iat ≤ self.iat)) "The ID-Token was issued too far in the past"
  -- 11. validate nonce
  (match self.nonce with
   | some n =>
       validate_that (some n == nonce)
         "The ID-Token\x27s nonce does not match its expected value"
   | none => pure ())
  -- 12. validate acr
  (match self.acr, validate_acr with
   | some acr, some f => f acr
   | _, _ => pure ())
  -- 13. validate auth_time
  (match self.auth_time with
   | some t =>
       validate_that (decide (min_auth_time ≤ t))
         "The session associated with this ID-Token was authenticated too far in the past"
   | none => pure ())

/-- Condition of validation step 3 (audience) of `IdToken.validate_extern`,
exactly as the code checks it. -/
def audStepOk (aud : StrOrList) (client_id : String)
    (extra_trusted_audiences : List String) : Bool :=
  match aud with
  | .str a => a == client_id
  | .list l => l.contains client_id && (l.all fun i => extra_trusted_audiences.contains i)

/-- Condition of validation step 4 (azp presence) of `IdToken.validate_extern`. -/
def azpPresenceStepOk (aud : StrOrList) (azp : Option String) : Bool :=
  match aud with
  | .list l => !(decide (l.length > 1)) || azp.isSome
  | .str _ => true

/-- Condition of validation step 5 (azp value) of `IdToken.validate_extern`. -/
def azpValueStepOk (azp : Option String) (client_id : String) : Bool :=
  match azp with
  | some a => a == client_id
  | none => true

/-- Embedding of `simple_openid_connect.data.TokenRequest`.  The model
allows extra fields (`Extra.allow`); the PKCE parameters passed by
`exchange_code_for_tokens` are modelled as the explicit optional fields
`code_verifier`, `code_challenge` and `code_challenge_method`. -/
structure TokenRequest where
  grant_type : String
  code : Option String := none
  redirect_uri : Option String := none
  client_id : Option String := none
  refresh_token : Option String := none
  username : Option String := none
  password : Option String := none
  scope : Option String := none
  code_verifier : Option String := none
  code_challenge : Option String := none
  code_challenge_method : Option String := none
deriving DecidableEq, Repr

/-- Embedding of a failed Python `assert cond, msg` inside a pydantic
root validator: the assertion error message becomes a pydantic
validation error. -/
def assert_that (condition : Bool) (msg : String) : Except String Unit :=
  if condition then .ok () else .error msg

/-- Embedding of `TokenRequest._validate_required_based_on_grant_type`
from `src/simple_openid_connect/data.py`, branch by branch.  Note that the
source has no branch for `grant_type == "client_credentials"`. -/
def TokenRequest.validate_required_based_on_grant_type (values : TokenRequest) :
    Except String Unit := do
  if values.grant_type == "authorization_code" then do
    assert_that values.code.isSome
      "code is required when grant_type is \x27authorization_code\x27"
    assert_that values.redirect_uri.isSome
      "redirect_uri is required when grant_type is \x27authorization_code\x27"
  else if values.grant_type == "refresh_token" then
    assert_that values.refresh_token.isSome
      "refresh_token is required when grant_type is \x27refresh_token\x27"
  else if values.grant_type == "password" then do
    assert_that values.username.isSome
      "username is required when grant_type is \x27password\x27"
    assert_that values.password.isSome
      "password is required when grant_type is \x27password\x27"
    assert_that values.scope.isSome
      "scope is required when grant_type is \x27password\x27"
  else
    pure ()

/-- Embedding of `simple_openid_connect.client_authentication.ClientAuthenticationMethod`
with its two concrete variants `NoneAuth` (NAME `"none"`) and
`ClientSecretBasicAuth` (NAME `"client_secret_basic"`). -/
inductive ClientAuthenticationMethod where
  | NoneAuth (client_id : String)
  | ClientSecretBasicAuth (client_id : String) (client_secret : String)
deriving DecidableEq, Repr

/-- The `client_id` property shared by all client authentication methods. -/
def ClientAuthenticationMethod.client_id : ClientAuthenticationMethod → String
  | .NoneAuth cid => cid
  | .ClientSecretBasicAuth cid _ => cid

/-- Embedding of `simple_openid_connect.data.ProviderMetadata`, restricted
to the fields the embedded operations read.  The pydantic default of
`token_endpoint_auth_methods_supported` is `["client_secret_basic"]`. -/
structure ProviderMetadata where
  issuer : String
  authorization_endpoint : String
  token_endpoint : Option String := none
  token_endpoint_auth_methods_supported : List String := ["client_secret_basic"]
deriving DecidableEq, Repr

/-- Embedding of the state of a constructed `simple_openid_connect.client.OpenidClient`
(the fields assigned in `__init__` that later operations read; provider
keys and the flow sub-clients are omitted because they carry no decision
logic of their own). -/
structure OpenidClient where
  provider_config : ProviderMetadata
  scope : String
  authentication_redirect_uri : Option String
  client_auth : ClientAuthenticationMethod
deriving DecidableEq, Repr

/-- Embedding of `OpenidClient.__init__` from
`src/simple_openid_connect/client.py`: the client authentication method is
selected from `client_secret` and the provider metadata, and a raised
`NotImplementedError` is modelled as `Except.error`. -/
def OpenidClient.init (provider_config : ProviderMetadata)
    (authentication_redirect_uri : Option String) (client_id : String)
    (client_secret : Option String := none) (scope : String := "openid") :
    Except String OpenidClient :=
  match client_secret with
  | none =>
      .ok { provider_config, scope, authentication_redirect_uri,
            client_auth := .NoneAuth client_id }
  | some secret =>
      if provider_config.token_endpoint_auth_methods_supported.contains "client_secret_basic" then
        .ok { provider_config, scope, authentication_redirect_uri,
              client_auth := .ClientSecretBasicAuth client_id secret }
      else
        .error "a client secret was given but the issuer does not support client_secret_basic authentication which is the only supported method"

/-- A URL value as manipulated through `furl`: the part before the query
string (scheme, host and path), the query parameters and the parameters
encoded in the fragment.  A parameter value of `none` models a key that
appears without a value (`?key` instead of `?key=value`). -/
structure Url where
  base : String
  query : List (String × Option String)
  fragment : List (String × Option String)
deriving DecidableEq, Repr

/-- Embedding of `query.params[key]` on a `furl` query: the first value
recorded for `key`, or `none` when the key does not occur. -/
def lookupFirst : List (String × Option String) → String → Option (Option String)
  | [], _ => none
  | p :: rest, key => if p.1 == key then some p.2 else lookupFirst rest key

/-- Embedding of `simple_openid_connect.data.AuthenticationSuccessResponse`
(`code` required, `state` optional, extra parameters ignored). -/
structure AuthenticationSuccessResponse where
  code : String
  state : Option String := none
deriving DecidableEq, Repr

/-- Embedding of `AuthenticationSuccessResponse.parse_x_www_form_urlencoded`
applied to a parameter list: pydantic requires a string value for `code`
and treats `state` as optional. -/
def AuthenticationSuccessResponse.parse_params
    (params : List (String × Option String)) :
    Except String AuthenticationSuccessResponse :=
  match lookupFirst params "code" with
  | some (some c) => .ok { code := c, state := (lookupFirst params "state").bind id }
  | _ => .error "1 validation error for AuthenticationSuccessResponse: code field required"

/-- Embedding of `AuthenticationSuccessResponse.parse_url` with
`location="auto"`: the fragment parameters are tried first and the query
string is used as a fallback when parsing the fragment fails. -/
def AuthenticationSuccessResponse.parse_url_auto (url : Url) :
    Except String AuthenticationSuccessResponse :=
  match AuthenticationSuccessResponse.parse_params url.fragment with
  | .ok r => .ok r
  | .error _ => AuthenticationSuccessResponse.parse_params url.query

/-- The exceptions `handle_authentication_result` can raise:
`AuthenticationFailedError` (carrying the `error` parameter of the
callback URL), `simple_openid_connect.exceptions.ValidationError`, and a
pydantic validation error raised while parsing the authentication
response from the URL. -/
inductive FlowError where
  | authenticationFailed (error : Option String)
  | validation (e : ValidationError)
  | parseError (msg : String)
deriving DecidableEq, Repr

/-- The `redirect_uri` argument of `handle_authentication_result`:
either the literal `"auto"` or an explicit URI. -/
inductive RedirectUriArg where
  | auto
  | uri (value : String)
deriving DecidableEq, Repr

/-- The token request built by `exchange_code_for_tokens` from
`src/simple_openid_connect/flows/authorization_code_flow/__init__.py`
just before it is POSTed to the token endpoint. -/
def exchangeTokenRequest (authentication_response : AuthenticationSuccessResponse)
    (redirect_uri : String) (client_authentication : ClientAuthenticationMethod)
    (code_verifier : Option String) (code_challenge : Option String)
    (code_challenge_method : Option String) : TokenRequest :=
  { grant_type := "authorization_code",
    code := some authentication_response.code,
    redirect_uri := some redirect_uri,
    client_id := some client_authentication.client_id,
    code_verifier, code_challenge, code_challenge_method }

/-- Outcome of the steps of `handle_authentication_result` that happen
before any network access: either an exception, or the decision to POST
the given token request to the token endpoint. -/
inductive HandleResult where
  | failure (e : FlowError)
  | exchange (request : TokenRequest)
deriving DecidableEq, Repr

/-- Embedding of `handle_authentication_result` from
`src/simple_openid_connect/flows/authorization_code_flow/__init__.py` up
to (but not including) the token-exchange POST, translated step by step:
the `error` parameter check, the `redirect_uri="auto"` reconstruction,
parsing the `AuthenticationSuccessResponse` from the current URL, the
state comparison, and finally the decision to exchange the code. -/
def handle_authentication_result_steps (current_url : Url)
    (client_authentication : ClientAuthenticationMethod)
    (redirect_uri : RedirectUriArg := .auto) (state : Option String := none)
    (code_verifier : Option String := none) (code_challenge : Option String := none)
    (code_challenge_method : Option String := none) : HandleResult :=
  if (lookupFirst current_url.query "error").isSome then
    .failure (.authenticationFailed ((lookupFirst current_url.query "error").bind id))
  else
    let redirect_uri_resolved :=
      match redirect_uri with
      | .auto => current_url.base
      | .uri v => v
    match AuthenticationSuccessResponse.parse_url_auto current_url with
    | .error e => .failure (.parseError e)
    | .ok auth_response_msg =>
        if state != auth_response_msg.state then
          .failure (.validation ⟨"Returned state does not match given state."⟩)
        else
          .exchange (exchangeTokenRequest auth_response_msg redirect_uri_resolved
            client_authentication code_verifier code_challenge code_challenge_method)

/-- Embedding of `simple_openid_connect.data.TokenSuccessResponse`. -/
structure TokenSuccessResponse where
  access_token : String
  token_type : String
  expires_in : Option Int := none
  refresh_token : Option String := none
  refresh_expires_in : Option Int := none
  scope : Option String := none
  id_token : String
deriving DecidableEq, Repr

/-- Embedding of `simple_openid_connect.data.TokenErrorResponse`. -/
structure TokenErrorResponse where
  error : String
  error_description : Option String := none
  error_uri : Option String := none
deriving DecidableEq, Repr

/-- Return type of the token exchange:
`Union[TokenSuccessResponse, TokenErrorResponse]`. -/
inductive TokenResponse where
  | success (r : TokenSuccessResponse)
  | error (e : TokenErrorResponse)
deriving DecidableEq, Repr

/-- Embedding of `exchange_code_for_tokens`: build the token request and
POST it.  `post` models `requests.post` to the token endpoint combined
with the status-code branch that parses the response body. -/
def exchange_code_for_tokens (post : TokenRequest → TokenResponse)
    (authentication_response : AuthenticationSuccessResponse)
    (redirect_uri : String) (client_authentication : ClientAuthenticationMethod)
    (code_verifier : Option String := none) (code_challenge : Option String := none)
    (code_challenge_method : Option String := none) : TokenResponse :=
  post (exchangeTokenRequest authentication_response redirect_uri
    client_authentication code_verifier code_challenge code_challenge_method)

/-- Embedding of the whole of `handle_authentication_result`: the
pre-exchange steps followed by the token-exchange POST, whose parsed
response is returned to the caller as-is. -/
def handle_authentication_result (current_url : Url)
    (post : TokenRequest → TokenResponse)
    (client_authentication : ClientAuthenticationMethod)
    (redirect_uri : RedirectUriArg := .auto) (state : Option String := none)
    (code_verifier : Option String := none) (code_challenge : Option String := none)
    (code_challenge_method : Option String := none) : Except FlowError TokenResponse :=
  match handle_authentication_result_steps current_url client_authentication
      redirect_uri state code_verifier code_challenge code_challenge_method with
  | .failure e => .error e
  | .exchange request => .ok (post request)

/-- Working state of the SHA-256 compression function: eight 32-bit words. -/
structure Hash8 where
  a : Nat
  b : Nat
  c : Nat
  d : Nat
  e : Nat
  f : Nat
  g : Nat
  h : Nat
deriving DecidableEq, Repr

/-- Truncation to a 32-bit word. -/
def w32 (x : Nat) : Nat := x % 4294967296

/-- Right rotation of a 32-bit word by `n` positions. -/
def rotr32 (n x : Nat) : Nat := w32 (x / 2 ^ n + x % 2 ^ n * 2 ^ (32 - n))

/-- Logical right shift of a 32-bit word by `n` positions. -/
def shr32 (n x : Nat) : Nat := x / 2 ^ n

/-- Bitwise complement of a 32-bit word. -/
def not32 (x : Nat) : Nat := 4294967295 - x

/-- SHA-256 big sigma-0 function (FIPS 180-4). -/
def bsig0 (x : Nat) : Nat := rotr32 2 x ^^^ rotr32 13 x ^^^ rotr32 22 x

/-- SHA-256 big sigma-1 function (FIPS 180-4). -/
def bsig1 (x : Nat) : Nat := rotr32 6 x ^^^ rotr32 11 x ^^^ rotr32 25 x

/-- SHA-256 small sigma-0 function (FIPS 180-4). -/
def ssig0 (x : Nat) : Nat := rotr32 7 x ^^^ rotr32 18 x ^^^ shr32 3 x

/-- SHA-256 small sigma-1 function (FIPS 180-4). -/
def ssig1 (x : Nat) : Nat := rotr32 17 x ^^^ rotr32 19 x ^^^ shr32 10 x

/-- SHA-256 choice function. -/
def chf (x y z : Nat) : Nat := (x &&& y) ^^^ (not32 x &&& z)

/-- SHA-256 majority function. -/
def majf (x y z : Nat) : Nat := (x &&& y) ^^^ (x &&& z) ^^^ (y &&& z)

/-- SHA-256 round constants (FIPS 180-4), used to model `hashlib.sha256`. -/
def sha256K : List Nat :=
  [1116352408, 1899447441, 3049323471, 3921009573,
   961987163, 1508970993, 2453635748, 2870763221,
   3624381080, 310598401, 607225278, 1426881987,
   1925078388, 2162078206, 2614888103, 3248222580,
   3835390401, 4022224774, 264347078, 604807628,
   770255983, 1249150122, 1555081692, 1996064986,
   2554220882, 2821834349, 2952996808, 3210313671,
   3336571891, 3584528711, 113926993, 338241895,
   666307205, 773529912, 1294757372, 1396182291,
   1695183700, 1986661051, 2177026350, 2456956037,
   2730485921, 2820302411, 3259730800, 3345764771,
   3516065817, 3600352804, 4094571909, 275423344,
   430227734, 506948616, 659060556, 883997877,
   958139571, 1322822218, 1537002063, 1747873779,
   1955562222, 2024104815, 2227730452, 2361852424,
   2428436474, 2756734187, 3204031479, 3329325298]

/-- SHA-256 initial hash value (FIPS 180-4). -/
def sha256H0 : Hash8 :=
  ⟨1779033703, 3144134277, 1013904242, 2773480762,
   1359893119, 2600822924, 528734635, 1541459225⟩

/-- Big-endian length field (in bits) appended by SHA-256 padding. -/
def sha256LengthBytes (L : Nat) : List Nat :=
  [8 * L / 2 ^ 56 % 256, 8 * L / 2 ^ 48 % 256, 8 * L / 2 ^ 40 % 256,
   8 * L / 2 ^ 32 % 256, 8 * L / 2 ^ 24 % 256, 8 * L / 2 ^ 16 % 256,
   8 * L / 2 ^ 8 % 256, 8 * L % 256]

/-- SHA-256 message padding: append `0x80`, zero bytes up to 56 mod 64,
and the 8-byte big-endian bit length. -/
def sha256Pad (msg : List Nat) : List Nat :=
  msg ++ [128] ++ List.replicate ((119 - msg.length % 64) % 64) 0 ++
    sha256LengthBytes msg.length

/-- Group a byte list into big-endian 32-bit words. -/
def bytesToWords : List Nat → List Nat
  | b1 :: b2 :: b3 :: b4 :: rest =>
      (((b1 * 256 + b2) * 256 + b3) * 256 + b4) :: bytesToWords rest
  | _ => []

/-- Extend the message schedule; `acc` holds the words computed so far in
reverse order, so that `acc[1]` is W[t-2], `acc[6]` is W[t-7], `acc[14]`
is W[t-15] and `acc[15]` is W[t-16]. -/
def sha256ExtendSchedule (acc : List Nat) : Nat → List Nat
  | 0 => acc.reverse
  | n + 1 =>
      let t := w32 (ssig1 (acc.getD 1 0) + acc.getD 6 0 +
        ssig0 (acc.getD 14 0) + acc.getD 15 0)
      sha256ExtendSchedule (t :: acc) n

/-- The 64-word message schedule of one 16-word block. -/
def sha256Schedule (block : List Nat) : List Nat :=
  sha256ExtendSchedule block.reverse 48

/-- One round of the SHA-256 compression function. -/
def sha256Round (s : Hash8) (k w : Nat) : Hash8 :=
  let t1 := w32 (s.h + bsig1 s.e + chf s.e s.f s.g + k + w)
  let t2 := w32 (bsig0 s.a + majf s.a s.b s.c)
  ⟨w32 (t1 + t2), s.a, s.b, s.c, w32 (s.d + t1), s.e, s.f, s.g⟩

/-- Run the compression rounds over the round constants and schedule. -/
def sha256Rounds (s : Hash8) : List Nat → List Nat → Hash8
  | k :: ks, w :: ws => sha256Rounds (sha256Round s k w) ks ws
  | _, _ => s

/-- Compress one 16-word block into the running hash value. -/
def sha256CompressBlock (hv : Hash8) (block : List Nat) : Hash8 :=
  let s := sha256Rounds hv sha256K (sha256Schedule block)
  ⟨w32 (hv.a + s.a), w32 (hv.b + s.b), w32 (hv.c + s.c), w32 (hv.d + s.d),
   w32 (hv.e + s.e), w32 (hv.f + s.f), w32 (hv.g + s.g), w32 (hv.h + s.h)⟩

/-- Process a padded byte stream in 64-byte blocks. -/
def sha256ProcessBlocks (hv : Hash8) (bytes : List Nat) : Hash8 :=
  match bytes with
  | [] => hv
  | b :: rest =>
      sha256ProcessBlocks
        (sha256CompressBlock hv (bytesToWords ((b :: rest).take 64)))
        ((b :: rest).drop 64)
termination_by bytes.length
decreasing_by simp [List.length_drop]; omega

/-- Big-endian byte decomposition of a 32-bit word. -/
def word4bytes (x : Nat) : List Nat :=
  [x / 16777216 % 256, x / 65536 % 256, x / 256 % 256, x % 256]

/-- Model of `hashlib.sha256(data).digest()`: the SHA-256 digest (32
bytes) of a byte list, per FIPS 180-4. -/
def sha256 (msg : List Nat) : List Nat :=
  let hv := sha256ProcessBlocks sha256H0 (sha256Pad msg)
  word4bytes hv.a ++ word4bytes hv.b ++ word4bytes hv.c ++ word4bytes hv.d ++
  word4bytes hv.e ++ word4bytes hv.f ++ word4bytes hv.g ++ word4bytes hv.h

/-- The URL-safe base64 alphabet used by `base64.urlsafe_b64encode`. -/
def b64urlAlphabet : List Char :=
  "ABCDEFGHIJKLMNOPQRSTUVWXYZabcdefghijklmnopqrstuvwxyz0123456789-_".toList

/-- The URL-safe base64 character for a 6-bit value. -/
def b64Char (n : Nat) : Char := b64urlAlphabet.getD n 'A'

/-- Model of `base64.urlsafe_b64encode` on a byte list: the padded
base64url character sequence. -/
def urlsafe_b64encode : List Nat → List Char
  | [] => []
  | [b1] => [b64Char (b1 / 4), b64Char (b1 % 4 * 16), '=', '=']
  | [b1, b2] => [b64Char (b1 / 4), b64Char (b1 % 4 * 16 + b2 / 16), b64Char (b2 % 16 * 4), '=']
  | b1 :: b2 :: b3 :: rest =>
      b64Char (b1 / 4) :: b64Char (b1 % 4 * 16 + b2 / 16) ::
      b64Char (b2 % 16 * 4 + b3 / 64) :: b64Char (b3 % 64) :: urlsafe_b64encode rest

/-- Modelled from the spec: "SHA-256 over the ASCII verifier,
base64url-encoded, no padding" — base64url encoding that never emits
padding characters, for comparison with what the code computes. -/
def b64urlEncodeNoPad : List Nat → List Char
  | [] => []
  | [b1] => [b64Char (b1 / 4), b64Char (b1 % 4 * 16)]
  | [b1, b2] => [b64Char (b1 / 4), b64Char (b1 % 4 * 16 + b2 / 16), b64Char (b2 % 16 * 4)]
  | b1 :: b2 :: b3 :: rest =>
      b64Char (b1 / 4) :: b64Char (b1 % 4 * 16 + b2 / 16) ::
      b64Char (b2 % 16 * 4 + b3 / 64) :: b64Char (b3 % 64) :: b64urlEncodeNoPad rest

/-- Embedding of `str.encode("ascii")`: encode to bytes, raising
`UnicodeEncodeError` when a character is not ASCII. -/
def encodeAscii (s : String) : Except String (List Nat) :=
  if s.toList.all fun c => c.toNat < 128 then .ok (s.toList.map Char.toNat)
  else .error "UnicodeEncodeError"

/-- Embedding of `get_code_challenge` from
`src/simple_openid_connect/pkce.py`: length guard, ASCII-encode, SHA-256,
`base64.urlsafe_b64encode`, then drop the last character (`[:-1]`). -/
def get_code_challenge (code_verifier : String) : Except String String :=
  if ¬ (43 ≤ code_verifier.length ∧ code_verifier.length ≤ 128) then
    .error "Parameter `code_verifier` must verify `43 <= len(code_verifier) <= 128`."
  else
    match encodeAscii code_verifier with
    | .error e => .error e
    | .ok bytes =>
        let hashed := sha256 bytes
        let encoded := urlsafe_b64encode hashed
        .ok (String.mk encoded.dropLast)

/-- Embedding of `generate_code_verifier` from
`src/simple_openid_connect/pkce.py`.  `token_urlsafe_96` models the
random string returned by `secrets.token_urlsafe(96)` (a 128-character
URL-safe ASCII string), passed explicitly because the embedding is
deterministic. -/
def generate_code_verifier (token_urlsafe_96 : List Char) (length : Nat := 128) :
    Except String String :=
  if ¬ (43 ≤ length ∧ length ≤ 128) then
    .error "Parameter `length` must verify `43 <= length <= 128`."
  else
    .ok (String.mk (token_urlsafe_96.take length))

/-- Embedding of `generate_pkce_pair` from
`src/simple_openid_connect/pkce.py`: generate a verifier and derive its
challenge. -/
def generate_pkce_pair (token_urlsafe_96 : List Char)
    (code_verifier_length : Nat := 128) : Except String (String × String) :=
  if ¬ (43 ≤ code_verifier_length ∧ code_verifier_length ≤ 128) then
    .error "Parameter `code_verifier_length` must verify `43 <= code_verifier_length <= 128`."
  else
    match generate_code_verifier token_urlsafe_96 code_verifier_length with
    | .error e => .error e
    | .ok code_verifier =>
        match get_code_challenge code_verifier with
        | .error e => .error e
        | .ok code_challenge => .ok (code_verifier, code_challenge)

/-- Python value held by a field of a pydantic message model, as far as
the message codec of `src/simple_openid_connect/base_data.py` is
concerned. -/
inductive PyValue where
  | vnone
  | vstr (s : String)
  | vint (n : Int)
  | vlist (l : List String)
deriving DecidableEq, Repr

/-- Type annotation of a message model field. -/
inductive FieldType where
  | tstr
  | toptStr
  | toptInt
  | toptListStr
deriving DecidableEq, Repr

/-- Declaration of a message model field: its name, type and pydantic
default (`none` for required fields, which have no default). -/
structure FieldSpec where
  name : String
  ftype : FieldType
  default : Option PyValue
deriving DecidableEq, Repr

/-- A pydantic message model: its fields in declaration order and
whether extra fields are allowed (`Extra.allow`) or ignored. -/
structure Schema where
  fields : List FieldSpec
  extraAllow : Bool
deriving DecidableEq, Repr

/-- An instance of a message model: one value per declared field (in
declaration order) plus any extra fields stored on the instance.
pydantic equality compares both. -/
structure PyMessage where
  values : List PyValue
  extras : List (String × PyValue)
deriving DecidableEq, Repr

/-- Embedding of `self.dict(exclude_defaults=True)`: the declared fields
whose value differs from their default (required fields are always
included), followed by the extra fields. -/
def dictExcludeDefaults (s : Schema) (m : PyMessage) : List (String × PyValue) :=
  (((s.fields.zip m.values).filter fun fv => fv.1.default != some fv.2).map
    fun fv => (fv.1.name, fv.2)) ++ m.extras

/-- How `furl` turns one dict entry into query parameters: `None` becomes
a key without a value, a list value becomes one parameter per element. -/
def valueParams (name : String) : PyValue → List (String × Option String)
  | .vnone => [(name, none)]
  | .vstr s => [(name, some s)]
  | .vint n => [(name, some (toString n))]
  | .vlist l => l.map fun x => (name, some x)

/-- Embedding of `OpenidBaseModel.encode_x_www_form_urlencoded`: the
non-default fields rendered as `x-www-form-urlencoded` parameters (the
percent-encoding layer applied by `furl` is a bijection between the
parameter list and the encoded string and is left abstract). -/
def encode_x_www_form_urlencoded (s : Schema) (m : PyMessage) :
    List (String × Option String) :=
  (dictExcludeDefaults s m).flatMap fun nv => valueParams nv.1 nv.2

/-- Embedding of `OpenidBaseModel.encode_url`: update the query
parameters of an existing URL with the message parameters
(`url_parsed.args.update(...)`; parameters of updated keys are replaced,
other parameters of the URL are kept). -/
def encode_url (s : Schema) (m : PyMessage) (url : Url) : Url :=
  let d := dictExcludeDefaults s m
  { url with
    query :=
      (url.query.filter fun p => !(d.any fun nv => nv.1 == p.1)) ++
      d.flatMap fun nv => valueParams nv.1 nv.2 }

/-- The `one_value_params` mapping built by
`parse_x_www_form_urlencoded`: for each key, in order of first
occurrence, the first value recorded for it (`query.params[key]`). -/
def oneValueParams : List (String × Option String) →
    List (String × Option String)
  | [] => []
  | (k, v) :: rest => (k, v) :: ((oneValueParams rest).filter fun p => !(p.1 == k))

/-- pydantic v1 coercion of one query-parameter value into a field of
the given type: `Optional` accepts a missing value, `int` parses decimal
strings, and `List[str]` rejects a plain string (this is what makes
multi-valued parameters unparsable, because only the first value is
kept). -/
def coerceValue (t : FieldType) (v : Option String) : Except String PyValue :=
  match t, v with
  | .tstr, some s => .ok (.vstr s)
  | .tstr, none => .error "none is not an allowed value"
  | .toptStr, some s => .ok (.vstr s)
  | .toptStr, none => .ok .vnone
  | .toptInt, some s =>
      match s.toInt? with
      | some n => .ok (.vint n)
      | none => .error "value is not a valid integer"
  | .toptInt, none => .ok .vnone
  | .toptListStr, some _ => .error "value is not a valid list"
  | .toptListStr, none => .ok .vnone

/-- pydantic `parse_obj` over the declared fields: look each field up in
the one-value parameter mapping, coerce it, and fall back to the default
when the parameter is absent. -/
def parseFields (ovp : List (String × Option String)) :
    List FieldSpec → Except String (List PyValue)
  | [] => .ok []
  | f :: fs =>
      match lookupFirst ovp f.name with
      | some v =>
          match coerceValue f.ftype v with
          | .error e => .error e
          | .ok pv =>
              match parseFields ovp fs with
              | .error e => .error e
              | .ok rest => .ok (pv :: rest)
      | none =>
          match f.default with
          | some d =>
              match parseFields ovp fs with
              | .error e => .error e
              | .ok rest => .ok (d :: rest)
          | none => .error (f.name ++ " field required")

/-- pydantic `parse_obj` handling of parameters that match no declared
field: stored on the instance under `Extra.allow`, dropped otherwise. -/
def parseExtras (s : Schema) (ovp : List (String × Option String)) :
    List (String × PyValue) :=
  if s.extraAllow then
    (ovp.filter fun p => !(s.fields.any fun f => f.name == p.1)).map
      fun p => (p.1, match p.2 with | some v => PyValue.vstr v | none => PyValue.vnone)
  else []

/-- Embedding of `OpenidBaseModel.parse_x_www_form_urlencoded`: build the
one-value parameter mapping and run `parse_obj` on it. -/
def parse_x_www_form_urlencoded (s : Schema) (params : List (String × Option String)) :
    Except String PyMessage :=
  let ovp := oneValueParams params
  match parseFields ovp s.fields with
  | .error e => .error e
  | .ok vs => .ok { values := vs, extras := parseExtras s ovp }

/-- Embedding of `OpenidBaseModel.parse_url` with `location="query"`:
parse the message from the query string of the URL. -/
def parse_url_query (s : Schema) (url : Url) : Except String PyMessage :=
  parse_x_www_form_urlencoded s url.query

/-- The field declarations of
`simple_openid_connect.data.AuthenticationRequest` (`Extra.allow`). -/
def authenticationRequestSchema : Schema :=
  { fields := [
      ⟨"scope", .tstr, none⟩,
      ⟨"response_type", .tstr, none⟩,
      ⟨"client_id", .tstr, none⟩,
      ⟨"redirect_uri", .tstr, none⟩,
      ⟨"state", .toptStr, some .vnone⟩,
      ⟨"response_mode", .toptStr, some .vnone⟩,
      ⟨"nonce", .toptStr, some .vnone⟩,
      ⟨"display", .toptListStr, some .vnone⟩,
      ⟨"prompt", .toptListStr, some .vnone⟩,
      ⟨"max_age", .toptInt, some .vnone⟩,
      ⟨"ui_locales", .toptListStr, some .vnone⟩,
      ⟨"id_token_hint", .toptStr, some .vnone⟩,
      ⟨"login_hint", .toptStr, some .vnone⟩,
      ⟨"acr_values", .toptListStr, some .vnone⟩],
    extraAllow := true }

/-- Whether a field value is scalar (a string or `None`), so that it is
rendered as at most one query parameter. -/
def isScalar : PyValue → Bool
  | .vnone => true
  | .vstr _ => true
  | .vint _ => false
  | .vlist _ => false

/-- Whether a value is well-typed for a field type. -/
def typeMatches : FieldType → PyValue → Bool
  | .tstr, .vstr _ => true
  | .toptStr, .vstr _ => true
  | .toptStr, .vnone => true
  | .toptInt, .vint _ => true
  | .toptInt, .vnone => true
  | .toptListStr, .vlist _ => true
  | .toptListStr, .vnone => true
  | _, _ => false

/-- The single parameter value a scalar field value is rendered to. -/
def encodeScalar : PyValue → Option String
  | .vnone => none
  | .vstr s => some s
  | .vint n => some (toString n)
  | .vlist _ => none

/-- The query parameters a single declared field contributes to the
encoding of a message: none when its value equals its default, its
`valueParams` otherwise (the per-field slice of `dictExcludeDefaults`
followed by `valueParams`). -/
def segParams (fv : FieldSpec × PyValue) : List (String × Option String) :=
  if fv.1.default != some fv.2 then valueParams fv.1.name fv.2 else []

/-- Whether `needle` occurs as a contiguous substring of `hay` (the
`pytest.raises(..., match=...)` predicate restricted to the literal
patterns used by the spec). -/
def strContains (hay needle : String) : Bool :=
  decide (needle.toList <:+: hay.toList)

/-- Whether a pre-exchange outcome of `handle_authentication_result` is a
raised `simple_openid_connect.exceptions.ValidationError`. -/
def HandleResult.isValidationFailure : HandleResult → Bool
  | .failure (.validation _) => true
  | _ => false

/-- The multi-audience ID-Token of the documented example:
`aud=["a","b"]`, `azp="a"`, issued at 1000 and expiring at 1300. -/
def multiAudienceToken : IdToken :=
  { iss := "https://provider.example.com", sub := "user-1",
    aud := .list ["a", "b"], exp := 1300, iat := 1000, azp := some "a" }

/-- An ID-Token from the wrong issuer whose `exp` lies 60 seconds before
the validation time 1000. -/
def expiredWrongIssuerToken : IdToken :=
  { iss := "https://wrong.example.com", sub := "user-1",
    aud := .str "test-client", exp := 940, iat := 900 }

/-- A minimal valid single-audience ID-Token issued at time 1000,
expiring at 1300 and carrying no optional claims. -/
def minimalToken : IdToken :=
  { iss := "https://provider.example.com", sub := "user-1",
    aud := .str "test-client", exp := 1300, iat := 1000 }

/-- The minimal token with a `nonce` claim of `"42"`. -/
def tokenWithNonce : IdToken := { minimalToken with nonce := some "42" }

/-- An expired (`exp = 1000 - 60`) but otherwise valid single-audience
ID-Token. -/
def expiredToken : IdToken := { minimalToken with exp := 940, iat := 900 }

/-- Callback URL of the end-to-end example: a code and a state of `"42"`. -/
def callbackUrlOk : Url :=
  { base := "https://app.example.com/login-callback",
    query := [("code", some "code.foobar123"), ("state", some "42")],
    fragment := [] }

/-- Callback URL whose `error` parameter reports an OP-side failure and
whose state `"0"` does not match the expected `"42"`. -/
def callbackUrlError : Url :=
  { base := "https://app.example.com/login-callback",
    query := [("error", some "access_denied"), ("state", some "0")],
    fragment := [] }

/-- Callback URL with a mismatching state and no `code` parameter. -/
def callbackUrlNoCode : Url :=
  { base := "https://app.example.com/login-callback",
    query := [("state", some "0")],
    fragment := [] }

/-- A token response whose `id_token` is not even a JWT: any attempt to
parse or validate it would fail. -/
def garbageTokenResponse : TokenSuccessResponse :=
  { access_token := "access_token.foobar123", token_type := "Bearer",
    id_token := "not-even-a-jwt" }

/-- A provider configuration advertising `client_secret_basic` (the
pydantic default for `token_endpoint_auth_methods_supported`). -/
def exampleProviderConfig : ProviderMetadata :=
  { issuer := "https://provider.example.com",
    authorization_endpoint := "https://provider.example.com/auth",
    token_endpoint := some "https://provider.example.com/token" }

/-- A provider configuration that only advertises `client_secret_post`. -/
def exampleProviderNoBasic : ProviderMetadata :=
  { exampleProviderConfig with
    token_endpoint_auth_methods_supported := ["client_secret_post"] }

/-- An `AuthenticationRequest` instance carrying a two-element `prompt`
list and no other optional fields. -/
def promptListMessage : PyMessage :=
  { values := [.vstr "openid", .vstr "code", .vstr "client-1",
               .vstr "https://app.example.com/cb", .vnone, .vnone, .vnone,
               .vnone, .vlist ["login", "consent"], .vnone, .vnone, .vnone,
               .vnone, .vnone],
    extras := [] }

/-- An `AuthenticationRequest` instance with only scalar fields set. -/
def scalarAuthMessage : PyMessage :=
  { values := [.vstr "openid", .vstr "code", .vstr "client-1",
               .vstr "https://app.example.com/cb", .vstr "state-1", .vnone,
               .vnone, .vnone, .vnone, .vnone, .vnone, .vnone, .vnone, .vnone],
    extras := [] }

/-- A base URL that already carries a query parameter of its own. -/
def baseUrlWithQuery : Url :=
  { base := "https://example.com", query := [("foo", some "bar")], fragment := [] }

/-! ### Helper lemmas -/

/-- Reduction lemma for sequencing two `Except ε Unit` computations. -/
theorem exceptSeq_ok_iff {ε : Type} (x : Except ε Unit) (f : Unit → Except ε Unit) :
    (x >>= f) = .ok () ↔ (x = .ok () ∧ f () = .ok ()) := by
  cases x with
  | error e => simp [Bind.bind, Except.bind]
  | ok u => cases u; simp [Bind.bind, Except.bind]

/-- Reduction lemma: binding after a successful step runs the continuation. -/
theorem exceptBind_ok {ε α β : Type} (a : α) (f : α → Except ε β) :
    (Except.ok a >>= f) = f a := rfl

/-- Reduction lemma: binding after a failed step keeps the error. -/
theorem exceptBind_error {ε α β : Type} (e : ε) (f : α → Except ε β) :
    ((Except.error e : Except ε α) >>= f) = .error e := rfl

/-- Reduction of `validate_that` on a true condition. -/
theorem validate_that_true {c : Bool} {msg : String} (h : c = true) :
    validate_that c msg = .ok () := by simp [validate_that, h]

/-- Reduction of `validate_that` on a false condition. -/
theorem validate_that_false {c : Bool} {msg : String} (h : c = false) :
    validate_that c msg = .error ⟨msg⟩ := by simp [validate_that, h]

/-- Success of `validate_that` is equivalent to its condition. -/
theorem validate_that_ok_iff {c : Bool} {msg : String} :
    validate_that c msg = .ok () ↔ c = true := by
  cases c <;> simp [validate_that]


/-- Success of a root-validator assertion is equivalent to its condition. -/
theorem assert_that_ok_iff {c : Bool} {msg : String} :
    assert_that c msg = .ok () ↔ c = true := by
  cases c <;> simp [assert_that]

/-- Parsing an authentication success response from a URL whose fragment
is empty and whose query carries a `code` parameter succeeds with that
code and the first `state` value of the query. -/
theorem handleSteps_parse (url : Url) (c : String)
    (hfrag : url.fragment = [])
    (hcode : lookupFirst url.query "code" = some (some c)) :
    AuthenticationSuccessResponse.parse_url_auto url
      = .ok { code := c, state := (lookupFirst url.query "state").bind id } := by
  have hfragp : AuthenticationSuccessResponse.parse_params ([] : List (String × Option String))
      = .error "1 validation error for AuthenticationSuccessResponse: code field required" := rfl
  have hqp : AuthenticationSuccessResponse.parse_params url.query
      = .ok { code := c, state := (lookupFirst url.query "state").bind id } := by
    unfold AuthenticationSuccessResponse.parse_params
    rw [hcode]
  unfold AuthenticationSuccessResponse.parse_url_auto
  rw [hfrag, hfragp, hqp]

/-- On an error-free callback URL with a code and a matching state, the
pre-exchange steps decide to POST the expected token request. -/
theorem handleSteps_exchange (url : Url) (auth : ClientAuthenticationMethod)
    (redirect_uri : RedirectUriArg) (expected_state : Option String)
    (cv cc ccm : Option String) (c : String)
    (hfrag : url.fragment = [])
    (herr : lookupFirst url.query "error" = none)
    (hcode : lookupFirst url.query "code" = some (some c))
    (hstate : expected_state = (lookupFirst url.query "state").bind id) :
    handle_authentication_result_steps url auth redirect_uri expected_state cv cc ccm
      = .exchange (exchangeTokenRequest
          { code := c, state := (lookupFirst url.query "state").bind id }
          (match redirect_uri with | .auto => url.base | .uri v => v) auth cv cc ccm) := by
  unfold handle_authentication_result_steps
  rw [handleSteps_parse url c hfrag hcode]
  simp [herr, hstate]
  all_goals rfl

/-- On an error-free callback URL with a code but a state that does not
match, the pre-exchange steps raise the state `ValidationError`. -/
theorem handleSteps_state_mismatch (url : Url) (auth : ClientAuthenticationMethod)
    (redirect_uri : RedirectUriArg) (expected_state : Option String)
    (cv cc ccm : Option String) (c : String)
    (hfrag : url.fragment = [])
    (herr : lookupFirst url.query "error" = none)
    (hcode : lookupFirst url.query "code" = some (some c))
    (hne : expected_state ≠ (lookupFirst url.query "state").bind id) :
    handle_authentication_result_steps url auth redirect_uri expected_state cv cc ccm
      = .failure (.validation ⟨"Returned state does not match given state."⟩) := by
  unfold handle_authentication_result_steps
  rw [handleSteps_parse url c hfrag hcode]
  have hne2 : ¬ expected_state = ((lookupFirst url.query "state").bind fun a => a) := by
    simpa using hne
  simp [herr, hne2]

/-- The SHA-256 digest is always 32 bytes long. -/
theorem sha256_length (msg : List Nat) : (sha256 msg).length = 32 := by
  simp [sha256, word4bytes]

/-- On inputs of length 2 mod 3 (such as SHA-256 digests), padded
base64url encoding is the unpadded encoding followed by one `=`. -/
theorem encode_eq_noPad_concat : ∀ (l : List Nat), l.length % 3 = 2 →
    urlsafe_b64encode l = b64urlEncodeNoPad l ++ ['=']
  | [], h => by simp at h
  | [b1], h => by simp at h
  | [b1, b2], _ => rfl
  | b1 :: b2 :: b3 :: rest, h => by
      have h2 : rest.length % 3 = 2 := by
        simp [List.length_cons] at h
        omega
      simp [urlsafe_b64encode, b64urlEncodeNoPad, encode_eq_noPad_concat rest h2]

/-- What `get_code_challenge` computes on a valid ASCII verifier: the
unpadded base64url encoding of the SHA-256 digest of the verifier. -/
theorem get_code_challenge_eq_noPad (v : String)
    (h43 : 43 ≤ v.length) (h128 : v.length ≤ 128)
    (hascii : (v.toList.all fun c => c.toNat < 128) = true) :
    get_code_challenge v
      = .ok (String.mk (b64urlEncodeNoPad (sha256 (v.toList.map Char.toNat)))) := by
  unfold get_code_challenge encodeAscii
  have hc : ¬ ¬ (43 ≤ v.length ∧ v.length ≤ 128) := by simp [h43, h128]
  rw [if_neg hc, if_pos hascii]
  have hmod : (sha256 (v.toList.map Char.toNat)).length % 3 = 2 := by
    rw [sha256_length]
  show Except.ok (String.mk ((urlsafe_b64encode (sha256 (v.toList.map Char.toNat))).dropLast))
      = Except.ok (String.mk (b64urlEncodeNoPad (sha256 (v.toList.map Char.toNat))))
  rw [encode_eq_noPad_concat _ hmod, List.dropLast_concat]

/-- Running `generate_pkce_pair` on a 128-character ASCII random string returns
the truncated verifier together with exactly its code challenge. -/
theorem generate_pkce_pair_challenge (rnd : List Char) (len : Nat)
    (h43 : 43 ≤ len) (h128 : len ≤ 128) (hlen : rnd.length = 128)
    (hascii : (rnd.all fun c => c.toNat < 128) = true) :
    generate_pkce_pair rnd len
      = .ok (String.mk (rnd.take len),
             String.mk (b64urlEncodeNoPad (sha256 ((rnd.take len).map Char.toNat))))
    ∧ get_code_challenge (String.mk (rnd.take len))
      = .ok (String.mk (b64urlEncodeNoPad (sha256 ((rnd.take len).map Char.toNat)))) := by
  have hvlen : (String.mk (rnd.take len)).length = len := by
    show (rnd.take len).length = len
    rw [List.length_take, hlen]
    omega
  have hvascii : ((String.mk (rnd.take len)).toList.all fun c => c.toNat < 128) = true := by
    show ((rnd.take len).all fun c => c.toNat < 128) = true
    rw [List.all_eq_true] at hascii ⊢
    exact fun x hx => hascii x (List.take_subset len rnd hx)
  have h43s : 43 ≤ (String.mk (rnd.take len)).length := by rw [hvlen]; exact h43
  have h128s : (String.mk (rnd.take len)).length ≤ 128 := by rw [hvlen]; exact h128
  have hch := get_code_challenge_eq_noPad (String.mk (rnd.take len)) h43s h128s hvascii
  refine ⟨?_, hch⟩
  unfold generate_pkce_pair generate_code_verifier
  have hng : ¬ ¬ (43 ≤ len ∧ len ≤ 128) := by simp [h43, h128]
  rw [if_neg hng, if_neg hng]
  show (match get_code_challenge (String.mk (rnd.take len)) with
    | .error e => Except.error e
    | .ok code_challenge => Except.ok (String.mk (rnd.take len), code_challenge)) = _
  rw [hch]
  rfl

/-- Looking a key up in an appended parameter list tries the left part first. -/
theorem lookupFirst_append (xs ys : List (String × Option String)) (k : String) :
    lookupFirst (xs ++ ys) k
      = match lookupFirst xs k with
        | some v => some v
        | none => lookupFirst ys k := by
  induction xs with
  | nil => simp [lookupFirst]
  | cons p xs ih =>
      by_cases h : (p.1 == k) = true
      · simp [lookupFirst, h]
      · simp only [Bool.not_eq_true] at h
        simp [lookupFirst, h, ih]

/-- Looking up a key that occurs nowhere yields nothing. -/
theorem lookupFirst_eq_none (xs : List (String × Option String)) (k : String)
    (h : ∀ p ∈ xs, ¬ (p.1 = k)) : lookupFirst xs k = none := by
  induction xs with
  | nil => rfl
  | cons p xs ih =>
      have hp : ¬ (p.1 = k) := h p (by simp)
      simp only [lookupFirst]
      rw [if_neg (by simpa using hp)]
      exact ih fun q hq => h q (by simp [hq])

/-- Every parameter rendered from one dict entry carries the key of that entry. -/
theorem valueParams_keys (n : String) (v : PyValue) (p : String × Option String)
    (hp : p ∈ valueParams n v) : p.1 = n := by
  cases v with
  | vnone => simp [valueParams] at hp; simp [hp]
  | vstr s => simp [valueParams] at hp; simp [hp]
  | vint k => simp [valueParams] at hp; simp [hp]
  | vlist l =>
      simp [valueParams] at hp
      obtain ⟨a, _, ha⟩ := hp
      simp [← ha]

/-- Every parameter a field contributes carries the name of the field. -/
theorem segParams_keys (fv : FieldSpec × PyValue) (p : String × Option String)
    (hp : p ∈ segParams fv) : p.1 = fv.1.name := by
  unfold segParams at hp
  split at hp
  · exact valueParams_keys _ _ _ hp
  · simp at hp

/-- A kept scalar field contributes exactly one parameter. -/
theorem segParams_scalar (fv : FieldSpec × PyValue)
    (hs : fv.1.default ≠ some fv.2 → isScalar fv.2 = true)
    (h : (fv.1.default != some fv.2) = true) :
    segParams fv = [(fv.1.name, encodeScalar fv.2)] := by
  have hsc : isScalar fv.2 = true := hs (by simpa using h)
  unfold segParams
  rw [if_pos h]
  cases hv : fv.2 <;> rw [hv] at hsc <;>
    simp_all [valueParams, encodeScalar, isScalar]

/-- A field at its default value contributes no parameter. -/
theorem segParams_default (fv : FieldSpec × PyValue)
    (h : (fv.1.default != some fv.2) = false) : segParams fv = [] := by
  simp [segParams, h]

/-- Coercing the rendered value of a well-typed scalar field recovers the value. -/
theorem coerce_encodeScalar (t : FieldType) (v : PyValue)
    (ht : typeMatches t v = true) (hs : isScalar v = true) :
    coerceValue t (encodeScalar v) = .ok v := by
  cases t <;> cases v <;>
    simp_all [typeMatches, isScalar, coerceValue, encodeScalar]

/-- The form encoding of an extras-free message is the concatenation of its per-field parameter slices. -/
theorem encode_eq_flatMap (s : Schema) (m : PyMessage) (hextras : m.extras = []) :
    encode_x_www_form_urlencoded s m = (s.fields.zip m.values).flatMap segParams := by
  unfold encode_x_www_form_urlencoded dictExcludeDefaults
  rw [hextras, List.append_nil]
  induction s.fields.zip m.values with
  | nil => simp
  | cons fv rest ih =>
      cases h : (fv.1.default != some fv.2) with
      | true => simp [List.filter_cons, h, segParams, ih]
      | false => simp [List.filter_cons, h, segParams, ih]

/-- Every encoded parameter key is the name of some encoded field. -/
theorem flatMap_segParams_keys (pairs : List (FieldSpec × PyValue))
    (p : String × Option String) (hp : p ∈ pairs.flatMap segParams) :
    ∃ fv ∈ pairs, p.1 = fv.1.name := by
  rw [List.mem_flatMap] at hp
  obtain ⟨fv, hfv, hpseg⟩ := hp
  exact ⟨fv, hfv, segParams_keys fv p hpseg⟩

/-- The encoded parameter keys form a sublist of the field names when all kept values are scalar. -/
theorem flatMap_segParams_keys_sublist (pairs : List (FieldSpec × PyValue))
    (hs : ∀ fv ∈ pairs, fv.1.default ≠ some fv.2 → isScalar fv.2 = true) :
    ((pairs.flatMap segParams).map Prod.fst).Sublist (pairs.map fun fv => fv.1.name) := by
  induction pairs with
  | nil => simp
  | cons fv rest ih =>
      have ihr := ih fun g hg => hs g (by simp [hg])
      simp only [List.flatMap_cons, List.map_append, List.map_cons]
      cases h : (fv.1.default != some fv.2) with
      | true =>
          rw [segParams_scalar fv (hs fv (by simp)) h]
          simpa using ihr.cons₂ fv.1.name
      | false =>
          rw [segParams_default fv h]
          simpa using ihr.cons fv.1.name

/-- On a parameter list with pairwise distinct keys, the one-value-per-key collapse is the identity. -/
theorem oneValueParams_nodup_id : ∀ (params : List (String × Option String)),
    (params.map Prod.fst).Nodup → oneValueParams params = params
  | [], _ => by simp [oneValueParams]
  | (k, v) :: rest, h => by
      rw [List.map_cons, List.nodup_cons] at h
      have hk : ∀ p ∈ rest, ¬ (p.1 = k) := by
        intro p hp hpk
        have hmem : p.1 ∈ rest.map Prod.fst := List.mem_map_of_mem Prod.fst hp
        rw [hpk] at hmem
        exact h.1 hmem
      have hfilter : (rest.filter fun p => !(p.1 == k)) = rest :=
        List.filter_eq_self.mpr fun p hp => by simpa using hk p hp
      simp only [oneValueParams]
      rw [oneValueParams_nodup_id rest h.2, hfilter]

/-- Parsing the declared fields back from the encoded parameters recovers every field value, also in the presence of a prefix of parameters belonging to no remaining field. -/
theorem parseFields_roundtrip :
    ∀ (pairs : List (FieldSpec × PyValue)) (pre : List (String × Option String)),
    (pairs.map fun fv => fv.1.name).Nodup →
    (∀ fv ∈ pairs, typeMatches fv.1.ftype fv.2 = true ∧
        (fv.1.default ≠ some fv.2 → isScalar fv.2 = true)) →
    (∀ p ∈ pre, ∀ fv ∈ pairs, ¬ (p.1 = fv.1.name)) →
    parseFields (pre ++ pairs.flatMap segParams) (pairs.map Prod.fst)
      = .ok (pairs.map Prod.snd)
  | [], pre, _, _, _ => by simp [parseFields]
  | fv :: rest, pre, hnodup, hok, hpre => by
      rw [List.map_cons, List.nodup_cons] at hnodup
      have hokfv := hok fv (by simp)
      have hokrest : ∀ g ∈ rest, typeMatches g.1.ftype g.2 = true ∧
          (g.1.default ≠ some g.2 → isScalar g.2 = true) :=
        fun g hg => hok g (by simp [hg])
      have hprefv : lookupFirst pre fv.1.name = none :=
        lookupFirst_eq_none pre fv.1.name fun p hp => hpre p hp fv (by simp)
      have hrestkeys : ∀ p ∈ rest.flatMap segParams, ¬ (p.1 = fv.1.name) := by
        intro p hp hpk
        obtain ⟨g, hg, hgk⟩ := flatMap_segParams_keys rest p hp
        have : fv.1.name ∈ List.map (fun fv => fv.1.name) rest := by
          rw [← hpk, hgk]
          exact List.mem_map_of_mem _ hg
        exact hnodup.1 this
      cases hkept : (fv.1.default != some fv.2) with
      | true =>
          rw [List.flatMap_cons, segParams_scalar fv hokfv.2 hkept]
          have hlook : lookupFirst (pre ++ [(fv.1.name, encodeScalar fv.2)] ++ rest.flatMap segParams) fv.1.name
              = some (encodeScalar fv.2) := by
            rw [List.append_assoc, lookupFirst_append, hprefv]
            simp [lookupFirst]
          have hih := parseFields_roundtrip rest (pre ++ [(fv.1.name, encodeScalar fv.2)])
            hnodup.2 hokrest (by
              intro p hp g hg hpk
              rcases List.mem_append.mp hp with hp1 | hp1
              · exact hpre p hp1 g (by simp [hg]) hpk
              · have hp1n : p.1 = fv.1.name := by
                  simp at hp1
                  simp [hp1]
                rw [hp1n] at hpk
                exact hnodup.1 (by rw [hpk]; exact List.mem_map_of_mem _ hg))
          rw [List.map_cons, List.map_cons, parseFields, ← List.append_assoc, hlook]
          simp only [coerce_encodeScalar fv.1.ftype fv.2 hokfv.1 (hokfv.2 (by simpa using hkept)), hih]
      | false =>
          rw [List.flatMap_cons, segParams_default fv hkept, List.nil_append]
          have hdef : fv.1.default = some fv.2 := by
            simpa using hkept
          have hlook : lookupFirst (pre ++ rest.flatMap segParams) fv.1.name = none := by
            rw [lookupFirst_append, hprefv]
            exact lookupFirst_eq_none _ _ hrestkeys
          have hih := parseFields_roundtrip rest pre hnodup.2 hokrest
            (fun p hp g hg => hpre p hp g (by simp [hg]))
          rw [List.map_cons, List.map_cons, parseFields, hlook, hdef]
          simp only [hih]

/-- No extra fields are collected when every parameter key is a declared field name. -/
theorem parseExtras_nil (s : Schema) (params : List (String × Option String))
    (h : ∀ p ∈ params, ∃ f ∈ s.fields, f.name = p.1) :
    parseExtras s params = [] := by
  unfold parseExtras
  split
  · have : (params.filter fun p => !(s.fields.any fun f => f.name == p.1)) = [] := by
      rw [List.filter_eq_nil_iff]
      intro p hp
      obtain ⟨f, hf, hfn⟩ := h p hp
      have hany : (s.fields.any fun f => f.name == p.1) = true := by
        rw [List.any_eq_true]
        exact ⟨f, hf, by simp [hfn]⟩
      simp [hany]
    rw [this]
    rfl
  · rfl

/-- Round trip of the form codec on extras-free, scalar-valued, well-typed messages over a schema with distinct field names. -/
theorem roundtrip_form (s : Schema) (m : PyMessage)
    (hnodup : (s.fields.map FieldSpec.name).Nodup)
    (hlen : m.values.length = s.fields.length)
    (hextras : m.extras = [])
    (hok : ∀ fv ∈ s.fields.zip m.values, typeMatches fv.1.ftype fv.2 = true ∧
        (fv.1.default ≠ some fv.2 → isScalar fv.2 = true)) :
    parse_x_www_form_urlencoded s (encode_x_www_form_urlencoded s m) = .ok m := by
  have hfst : (s.fields.zip m.values).map Prod.fst = s.fields :=
    List.map_fst_zip _ _ (by omega)
  have hsnd : (s.fields.zip m.values).map Prod.snd = m.values :=
    List.map_snd_zip _ _ (by omega)
  have hnames : ((s.fields.zip m.values).map fun fv => fv.1.name)
      = s.fields.map FieldSpec.name := by
    have : ((s.fields.zip m.values).map fun fv => fv.1.name)
        = ((s.fields.zip m.values).map Prod.fst).map FieldSpec.name := by
      rw [List.map_map]
      rfl
    rw [this, hfst]
  have hpairsnodup : ((s.fields.zip m.values).map fun fv => fv.1.name).Nodup := by
    rw [hnames]; exact hnodup
  have hscal : ∀ fv ∈ s.fields.zip m.values,
      fv.1.default ≠ some fv.2 → isScalar fv.2 = true :=
    fun fv hfv => (hok fv hfv).2
  have hkeysnodup : (((s.fields.zip m.values).flatMap segParams).map Prod.fst).Nodup :=
    (flatMap_segParams_keys_sublist _ hscal).nodup hpairsnodup
  have hmain := parseFields_roundtrip (s.fields.zip m.values) [] hpairsnodup hok (by simp)
  rw [List.nil_append, hfst, hsnd] at hmain
  rw [encode_eq_flatMap s m hextras]
  simp only [parse_x_www_form_urlencoded]
  rw [oneValueParams_nodup_id _ hkeysnodup, hmain]
  have hex : parseExtras s ((s.fields.zip m.values).flatMap segParams) = [] := by
    apply parseExtras_nil
    intro p hp
    obtain ⟨fv, hfv, hk⟩ := flatMap_segParams_keys _ p hp
    exact ⟨fv.1, (List.of_mem_zip hfv).1, hk.symm⟩
  rw [hex]
  cases m with
  | mk values extras => simp at hextras; simp [hextras]

/-- Round trip of the URL codec on a base URL without query parameters. -/
theorem roundtrip_url (s : Schema) (m : PyMessage) (b : String)
    (hnodup : (s.fields.map FieldSpec.name).Nodup)
    (hlen : m.values.length = s.fields.length)
    (hextras : m.extras = [])
    (hok : ∀ fv ∈ s.fields.zip m.values, typeMatches fv.1.ftype fv.2 = true ∧
        (fv.1.default ≠ some fv.2 → isScalar fv.2 = true)) :
    parse_url_query s (encode_url s m { base := b, query := [], fragment := [] })
      = .ok m := by
  have henc : encode_url s m { base := b, query := [], fragment := [] }
      = { base := b, query := encode_x_www_form_urlencoded s m, fragment := [] } := by
    simp [encode_url, encode_x_www_form_urlencoded]
  rw [henc]
  unfold parse_url_query
  exact roundtrip_form s m hnodup hlen hextras hok

/-- Claim C1 (code bug evaluated): for the documented multi-audience
example — a token with `aud=["a","b"]` and `azp="a"`, validated with
`client_id="a"` and `extra_trusted_audiences=["b"]` and all other claims
valid — the claim (and the repository test
`tests/test_validate_extern.py::test_id_token__multiple_audiences`) says
validation passes, but `IdToken.validate_extern` raises a
`ValidationError` saying that not all of the audience entries are
trusted, because its step 3 demands that every audience entry, including
the own `client_id` of the caller, be listed in
`extra_trusted_audiences`. -/
theorem C1_multi_audience_example_rejected_by_code :
    multiAudienceToken.validate_extern 1000 "https://provider.example.com" "a"
      none ["b"] 0 none 0
      = .error ⟨"Not all of the ID-Token\x27s audience are trusted"⟩ := by rfl

/-- Claim C3 (counterexample): constructing a `TokenRequest` with
`grant_type="client_credentials"` and no `scope` passes validation, so
the claim that the scope field is required for that grant type is false
of the code (the root validator has no `client_credentials` branch). -/
theorem C3_counterexample :
    TokenRequest.validate_required_based_on_grant_type { grant_type := "client_credentials" }
      = .ok ()
    ∧ ({ grant_type := "client_credentials" } : TokenRequest).scope = none := ⟨rfl, rfl⟩

/-- Claim C3 (amended): constructing a `TokenRequest` fails validation
exactly when a field required by its grant-type tag is missing, for the
three grant types the validator checks: `authorization_code` requires
`code` and `redirect_uri`, `refresh_token` requires `refresh_token`, and
`password` requires `username`, `password` and `scope`; no field is
required for `client_credentials` or any other grant type. -/
theorem C3_amended_grant_type_required_fields (tr : TokenRequest) :
    tr.validate_required_based_on_grant_type = .ok () ↔
      ((tr.grant_type = "authorization_code" →
          tr.code.isSome = true ∧ tr.redirect_uri.isSome = true)
       ∧ (tr.grant_type = "refresh_token" → tr.refresh_token.isSome = true)
       ∧ (tr.grant_type = "password" →
          tr.username.isSome = true ∧ tr.password.isSome = true ∧ tr.scope.isSome = true)) := by
  unfold TokenRequest.validate_required_based_on_grant_type
  by_cases h1 : tr.grant_type = "authorization_code"
  · simp [h1, exceptSeq_ok_iff, assert_that_ok_iff]
  · by_cases h2 : tr.grant_type = "refresh_token"
    · simp [h1, h2, exceptSeq_ok_iff, assert_that_ok_iff]
    · by_cases h3 : tr.grant_type = "password"
      · simp [h1, h2, h3, exceptSeq_ok_iff, assert_that_ok_iff]
      · simp [h1, h2, h3, pure, Except.pure]

/-- Claim C6 (counterexample): a token whose `exp` is 60 seconds in the
past but whose issuer also mismatches raises the *issuer*
`ValidationError`, whose message does not match "expired" — so an
expired token does not raise an error matching "expired" regardless of
its other claims. -/
theorem C6_counterexample :
    expiredWrongIssuerToken.validate_extern 1000 "https://provider.example.com"
      "test-client" none [] 0 none 0
      = .error ⟨"ID-Token was issued from unexpected issuer"⟩
    ∧ strContains "ID-Token was issued from unexpected issuer" "expired" = false :=
  ⟨rfl, by decide⟩

/-- Claim C6 (amended): for every ID-Token with `exp = now - 60`,
`validate_extern` raises exactly one `ValidationError`, at the first
failing check of the fixed validation order, with no aggregation; its
message is "The ID-Token is expired" (matching "expired") whenever the
checks preceding the expiry check — issuer, audience and azp — pass. -/
theorem C6_amended_expired_token_rejected (tok : IdToken) (now : Int)
    (issuer client_id : String) (nonce : Option String) (extra : List String)
    (min_iat : Int) (vacr : Option (String → Except ValidationError Unit))
    (min_auth_time : Int)
    (hexp : tok.exp = now - 60)
    (hiss : (tok.iss == issuer) = true)
    (haud : audStepOk tok.aud client_id extra = true)
    (hazp1 : azpPresenceStepOk tok.aud tok.azp = true)
    (hazp2 : azpValueStepOk tok.azp client_id = true) :
    tok.validate_extern now issuer client_id nonce extra min_iat vacr min_auth_time
      = .error ⟨"The ID-Token is expired"⟩
    ∧ strContains "The ID-Token is expired" "expired" = true := by
  refine ⟨?_, by decide⟩
  have hlt : ¬ now < tok.exp := by omega
  unfold IdToken.validate_extern
  cases haudc : tok.aud with
  | str a =>
      rw [haudc] at haud hazp1
      simp only [audStepOk] at haud
      cases hazpc : tok.azp with
      | some z =>
          rw [hazpc] at hazp2
          simp only [azpValueStepOk] at hazp2
          simp [haudc, hazpc, validate_that, hiss, haud, hazp2, hlt,
            Bind.bind, Except.bind, pure, Except.pure]
      | none =>
          simp [haudc, hazpc, validate_that, hiss, haud, hlt,
            Bind.bind, Except.bind, pure, Except.pure]
  | list l =>
      rw [haudc] at haud hazp1
      simp only [audStepOk, Bool.and_eq_true] at haud
      have hmem : client_id ∈ l := by simpa using haud.1
      have hall : ∀ x ∈ l, x ∈ extra := by simpa using haud.2
      simp only [azpPresenceStepOk] at hazp1
      cases hazpc : tok.azp with
      | some z =>
          rw [hazpc] at hazp2
          simp only [azpValueStepOk] at hazp2
          simp [haudc, hazpc, validate_that, hiss, hmem, hall, hazp2, hlt,
            Bind.bind, Except.bind, pure, Except.pure, ite_self]
          rw [if_pos hall]
      | none =>
          rw [hazpc] at hazp1
          have hlen : ¬ (1 < l.length) := by simpa using hazp1
          simp [haudc, hazpc, validate_that, hiss, hmem, hall, hlt, hlen,
            Bind.bind, Except.bind, pure, Except.pure]
          rw [if_pos hall]

/-- Claim C6 (witness): the amended theorem applied to the concrete
expired but otherwise valid token `expiredToken` at time 1000. -/
theorem C6_amended_witness :
    expiredToken.validate_extern 1000 "https://provider.example.com" "test-client"
      none [] 0 none 0
      = .error ⟨"The ID-Token is expired"⟩
    ∧ strContains "The ID-Token is expired" "expired" = true :=
  C6_amended_expired_token_rejected expiredToken 1000 "https://provider.example.com"
    "test-client" none [] 0 none 0 (by decide) (by decide) (by decide) (by decide) (by decide)

/-- Claim C7: in `IdToken.validate_extern`, whenever the token carries a
`nonce` claim that differs from the caller-supplied expected nonce —
including the case where the caller supplied none — validation raises a
`ValidationError` (it never succeeds). -/
theorem C7_nonce_mismatch_rejected (tok : IdToken) (now : Int)
    (issuer client_id : String) (nonce : Option String) (extra : List String)
    (min_iat : Int) (vacr : Option (String → Except ValidationError Unit))
    (min_auth_time : Int) (v : String)
    (hv : tok.nonce = some v) (hne : nonce ≠ some v) :
    tok.validate_extern now issuer client_id nonce extra min_iat vacr min_auth_time
      ≠ .ok () := by
  intro hok
  unfold IdToken.validate_extern at hok
  simp only [exceptSeq_ok_iff, hv, validate_that_ok_iff] at hok
  have := hok.2.2.2.2.2.2.1
  rw [beq_iff_eq] at this
  exact hne this.symm

/-- Claim C7 (witness): the theorem applied to a token carrying
`nonce="42"` validated with expected nonce `"0"`. -/
theorem C7_nonce_mismatch_rejected_witness :
    tokenWithNonce.validate_extern 1000 "https://provider.example.com" "test-client"
      (some "0") [] 0 none 0 ≠ .ok () :=
  C7_nonce_mismatch_rejected tokenWithNonce 1000 "https://provider.example.com"
    "test-client" (some "0") [] 0 none 0 "42" (by decide) (by decide)

/-- Claim C9: at client construction, `OpenidClient.init` selects
`NoneAuth` when no client secret is supplied; selects
`ClientSecretBasicAuth` when a secret is supplied and the provider
metadata advertises `client_secret_basic`; and otherwise fails
construction (raising, never silently falling back to another method). -/
theorem C9_client_auth_selection (provider_config : ProviderMetadata)
    (redirect : Option String) (client_id : String) (secret : Option String)
    (scope : String) :
    (secret = none →
      OpenidClient.init provider_config redirect client_id secret scope
        = .ok { provider_config, scope, authentication_redirect_uri := redirect,
                client_auth := .NoneAuth client_id })
    ∧ (∀ s, secret = some s →
        provider_config.token_endpoint_auth_methods_supported.contains "client_secret_basic" = true →
        OpenidClient.init provider_config redirect client_id secret scope
          = .ok { provider_config, scope, authentication_redirect_uri := redirect,
                  client_auth := .ClientSecretBasicAuth client_id s })
    ∧ (∀ s, secret = some s →
        provider_config.token_endpoint_auth_methods_supported.contains "client_secret_basic" = false →
        ∀ cl, OpenidClient.init provider_config redirect client_id secret scope ≠ .ok cl) := by
  refine ⟨fun h => by simp [OpenidClient.init, h], fun s hs hbasic => ?_,
    fun s hs hbasic cl => ?_⟩
  · have hb : "client_secret_basic" ∈ provider_config.token_endpoint_auth_methods_supported := by
      simpa using hbasic
    simp [OpenidClient.init, hs, hb]
  · have hb : "client_secret_basic" ∉ provider_config.token_endpoint_auth_methods_supported := by
      simpa using hbasic
    simp [OpenidClient.init, hs, hb]

/-- Claim C9 (witness): the selection rule applied to concrete provider
configurations — no secret, secret with `client_secret_basic`
advertised, and secret with only `client_secret_post` advertised. -/
theorem C9_client_auth_selection_witness :
    OpenidClient.init exampleProviderConfig (some "https://app.example.com/cb")
      "test-client" none "openid"
      = .ok { provider_config := exampleProviderConfig, scope := "openid",
              authentication_redirect_uri := some "https://app.example.com/cb",
              client_auth := .NoneAuth "test-client" }
    ∧ OpenidClient.init exampleProviderConfig (some "https://app.example.com/cb")
        "test-client" (some "s3cret") "openid"
      = .ok { provider_config := exampleProviderConfig, scope := "openid",
              authentication_redirect_uri := some "https://app.example.com/cb",
              client_auth := .ClientSecretBasicAuth "test-client" "s3cret" }
    ∧ OpenidClient.init exampleProviderNoBasic (some "https://app.example.com/cb")
        "test-client" (some "s3cret") "openid"
      ≠ .ok { provider_config := exampleProviderNoBasic, scope := "openid",
              authentication_redirect_uri := some "https://app.example.com/cb",
              client_auth := .ClientSecretBasicAuth "test-client" "s3cret" } :=
  ⟨(C9_client_auth_selection exampleProviderConfig (some "https://app.example.com/cb")
      "test-client" none "openid").1 rfl,
   (C9_client_auth_selection exampleProviderConfig (some "https://app.example.com/cb")
      "test-client" (some "s3cret") "openid").2.1 "s3cret" rfl (by decide),
   (C9_client_auth_selection exampleProviderNoBasic (some "https://app.example.com/cb")
      "test-client" (some "s3cret") "openid").2.2 "s3cret" rfl (by decide) _⟩

/-- Claim C10: if the caller supplies an expected nonce but the token
contains no `nonce` claim, the nonce check of `IdToken.validate_extern`
is skipped entirely — the outcome is identical to validating with no
expected nonce — and validation succeeds whenever all other checks pass;
the absence of a nonce claim is never itself a validation failure.
(Note: `tests/test_validate_extern.py::test_id_token__nonce` expects a
`ValidationError` in this situation; the code under `src/` skips the
check instead.) -/
theorem C10_absent_nonce_claim_skips_check (tok : IdToken) (now : Int)
    (issuer client_id : String) (n : String) (extra : List String) (min_iat : Int)
    (vacr : Option (String → Except ValidationError Unit)) (min_auth_time : Int)
    (h : tok.nonce = none) :
    tok.validate_extern now issuer client_id (some n) extra min_iat vacr min_auth_time
      = tok.validate_extern now issuer client_id none extra min_iat vacr min_auth_time
    ∧ (tok.validate_extern now issuer client_id none extra min_iat vacr min_auth_time
        = .ok () →
       tok.validate_extern now issuer client_id (some n) extra min_iat vacr min_auth_time
        = .ok ()) := by
  have heq : tok.validate_extern now issuer client_id (some n) extra min_iat vacr min_auth_time
      = tok.validate_extern now issuer client_id none extra min_iat vacr min_auth_time := by
    unfold IdToken.validate_extern
    simp only [h]
  exact ⟨heq, fun hk => heq.trans hk⟩

/-- Claim C10 (witness): the theorem applied to the nonce-free
`minimalToken` with expected nonce `"42"`; both validation runs coincide
and the run without expected nonce succeeds. -/
theorem C10_absent_nonce_claim_skips_check_witness :
    minimalToken.validate_extern 1000 "https://provider.example.com" "test-client"
      (some "42") [] 0 none 0
      = minimalToken.validate_extern 1000 "https://provider.example.com" "test-client"
          none [] 0 none 0
    ∧ (minimalToken.validate_extern 1000 "https://provider.example.com" "test-client"
          none [] 0 none 0 = .ok () →
       minimalToken.validate_extern 1000 "https://provider.example.com" "test-client"
          (some "42") [] 0 none 0 = .ok ()) :=
  C10_absent_nonce_claim_skips_check minimalToken 1000 "https://provider.example.com"
    "test-client" "42" [] 0 none 0 (by decide)

/-- Claim C4 (counterexample): two callback URLs whose `state` differs
from the expected `"42"` on which `handle_authentication_result` does
not raise a `ValidationError`: one carrying an `error` parameter (it
raises `AuthenticationFailedError` instead) and one without a `code`
parameter (parsing the response raises a pydantic validation error). -/
theorem C4_counterexample :
    handle_authentication_result_steps callbackUrlError (.NoneAuth "test-client")
      .auto (some "42") none none none
      = .failure (.authenticationFailed (some "access_denied"))
    ∧ (handle_authentication_result_steps callbackUrlError (.NoneAuth "test-client")
        .auto (some "42") none none none).isValidationFailure = false
    ∧ handle_authentication_result_steps callbackUrlNoCode (.NoneAuth "test-client")
        .auto (some "42") none none none
      = .failure (.parseError "1 validation error for AuthenticationSuccessResponse: code field required")
    ∧ (handle_authentication_result_steps callbackUrlNoCode (.NoneAuth "test-client")
        .auto (some "42") none none none).isValidationFailure = false :=
  ⟨rfl, by decide, rfl, by decide⟩

/-- Claim C4 (amended): for every callback URL without an `error`
parameter and carrying a `code` parameter (and no fragment message),
`handle_authentication_result` raises the state `ValidationError` — and
never reaches the token-exchange POST — exactly when the `state`
parameter of the URL differs from the caller-supplied expected state;
with matching state it proceeds to the exchange. -/
theorem C4_amended_state_check_before_exchange (url : Url)
    (auth : ClientAuthenticationMethod) (redirect_uri : RedirectUriArg)
    (expected_state : Option String) (cv cc ccm : Option String) (c : String)
    (hfrag : url.fragment = [])
    (herr : lookupFirst url.query "error" = none)
    (hcode : lookupFirst url.query "code" = some (some c)) :
    (expected_state ≠ (lookupFirst url.query "state").bind id →
       handle_authentication_result_steps url auth redirect_uri expected_state cv cc ccm
         = .failure (.validation ⟨"Returned state does not match given state."⟩))
    ∧ (expected_state = (lookupFirst url.query "state").bind id →
       handle_authentication_result_steps url auth redirect_uri expected_state cv cc ccm
         = .exchange (exchangeTokenRequest
             { code := c, state := (lookupFirst url.query "state").bind id }
             (match redirect_uri with | .auto => url.base | .uri v => v)
             auth cv cc ccm)) :=
  ⟨fun hne => handleSteps_state_mismatch url auth redirect_uri expected_state
      cv cc ccm c hfrag herr hcode hne,
   fun heq => handleSteps_exchange url auth redirect_uri expected_state
      cv cc ccm c hfrag herr hcode heq⟩

/-- Claim C4 (witness): the amended theorem applied to the concrete
callback URL carrying `code` and `state=42`, once with the mismatching
expected state `"0"` and once with the matching `"42"`. -/
theorem C4_amended_witness :
    handle_authentication_result_steps callbackUrlOk (.NoneAuth "test-client")
      .auto (some "0") none none none
      = .failure (.validation ⟨"Returned state does not match given state."⟩)
    ∧ handle_authentication_result_steps callbackUrlOk (.NoneAuth "test-client")
        .auto (some "42") none none none
      = .exchange (exchangeTokenRequest
          { code := "code.foobar123", state := some "42" }
          callbackUrlOk.base (.NoneAuth "test-client") none none none) :=
  ⟨(C4_amended_state_check_before_exchange callbackUrlOk (.NoneAuth "test-client")
      .auto (some "0") none none none "code.foobar123" rfl rfl rfl).1 (by decide),
   (C4_amended_state_check_before_exchange callbackUrlOk (.NoneAuth "test-client")
      .auto (some "42") none none none "code.foobar123" rfl rfl rfl).2 rfl⟩

/-- Claim C2 (counterexample): `handle_authentication_result`, run on a
valid callback URL against a token endpoint whose response carries an
`id_token` that is not even a JWT, returns that response as a success to
the caller — no parsing or claim validation of the ID-Token happens
inside `handle_authentication_result` (the function does not even
receive an expected nonce or a `min_iat`). -/
theorem C2_counterexample :
    handle_authentication_result callbackUrlOk (fun _ => .success garbageTokenResponse)
      (.NoneAuth "test-client") .auto (some "42") none none none
      = .ok (.success garbageTokenResponse)
    ∧ garbageTokenResponse.id_token = "not-even-a-jwt" := ⟨rfl, rfl⟩

/-- Claim C2 (amended): after the error check, response parsing and
state check succeed, `handle_authentication_result` POSTs the token
request and returns the parsed response of the token endpoint unchanged — it
performs no ID-Token parsing or validation; validating the ID-Token
(against `nonce` and `min_iat`) is a separate step of the caller
(`OpenidClient.decode_id_token`, or `LoginCallbackView.extract_id` in
the Django integration). -/
theorem C2_amended_exchange_result_returned_unchanged (url : Url)
    (post : TokenRequest → TokenResponse) (auth : ClientAuthenticationMethod)
    (redirect_uri : RedirectUriArg) (expected_state : Option String)
    (cv cc ccm : Option String) (c : String)
    (hfrag : url.fragment = [])
    (herr : lookupFirst url.query "error" = none)
    (hcode : lookupFirst url.query "code" = some (some c))
    (hstate : expected_state = (lookupFirst url.query "state").bind id) :
    handle_authentication_result url post auth redirect_uri expected_state cv cc ccm
      = .ok (post (exchangeTokenRequest
          { code := c, state := (lookupFirst url.query "state").bind id }
          (match redirect_uri with | .auto => url.base | .uri v => v)
          auth cv cc ccm)) := by
  unfold handle_authentication_result
  rw [handleSteps_exchange url auth redirect_uri expected_state cv cc ccm c
    hfrag herr hcode hstate]

/-- Claim C2 (witness): the amended theorem applied to the concrete
callback URL and a token endpoint returning `garbageTokenResponse`. -/
theorem C2_amended_witness :
    handle_authentication_result callbackUrlOk (fun _ => .success garbageTokenResponse)
      (.NoneAuth "test-client") .auto (some "42") none none none
      = .ok ((fun _ => TokenResponse.success garbageTokenResponse)
          (exchangeTokenRequest { code := "code.foobar123", state := some "42" }
            callbackUrlOk.base (.NoneAuth "test-client") none none none)) :=
  C2_amended_exchange_result_returned_unchanged callbackUrlOk
    (fun _ => .success garbageTokenResponse) (.NoneAuth "test-client") .auto
    (some "42") none none none "code.foobar123" rfl rfl rfl rfl

/-- Claim C5: for every ASCII verifier of length between 43 and 128,
`get_code_challenge` returns exactly the unpadded base64url encoding of
the SHA-256 digest of the ASCII-encoded verifier (a pure function of the
verifier), and `generate_pkce_pair` — run on the 128-character URL-safe
ASCII string produced by `secrets.token_urlsafe(96)` — returns a
(verifier, challenge) pair with `get_code_challenge verifier = challenge`. -/
theorem C5_pkce_challenge_correct :
    (∀ v : String, 43 ≤ v.length → v.length ≤ 128 →
      (v.toList.all fun c => c.toNat < 128) = true →
      get_code_challenge v
        = .ok (String.mk (b64urlEncodeNoPad (sha256 (v.toList.map Char.toNat)))))
    ∧ (∀ (rnd : List Char) (len : Nat), 43 ≤ len → len ≤ 128 →
      rnd.length = 128 → (rnd.all fun c => c.toNat < 128) = true →
      generate_pkce_pair rnd len
        = .ok (String.mk (rnd.take len),
               String.mk (b64urlEncodeNoPad (sha256 ((rnd.take len).map Char.toNat))))
      ∧ get_code_challenge (String.mk (rnd.take len))
        = .ok (String.mk (b64urlEncodeNoPad (sha256 ((rnd.take len).map Char.toNat))))) :=
  ⟨get_code_challenge_eq_noPad, generate_pkce_pair_challenge⟩

/-- Claim C5 (witness): the theorem applied to the 43-character verifier
`aaa...a` and to a 128-character random string of `a`s truncated to 43. -/
theorem C5_pkce_challenge_correct_witness :
    get_code_challenge (String.mk (List.replicate 43 'a'))
      = .ok (String.mk (b64urlEncodeNoPad
          (sha256 ((String.mk (List.replicate 43 'a')).toList.map Char.toNat))))
    ∧ generate_pkce_pair (List.replicate 128 'a') 43
      = .ok (String.mk ((List.replicate 128 'a').take 43),
             String.mk (b64urlEncodeNoPad
               (sha256 (((List.replicate 128 'a').take 43).map Char.toNat)))) :=
  ⟨C5_pkce_challenge_correct.1 (String.mk (List.replicate 43 'a'))
      (by decide) (by decide) (by decide),
   (C5_pkce_challenge_correct.2 (List.replicate 128 'a') 43
      (by decide) (by decide) (by decide) (by decide)).1⟩

/-- Claim C8 (counterexample): the round trip fails on real messages.
An `AuthenticationRequest` whose `prompt` list has two entries encodes
to two `prompt` parameters, of which decoding keeps only the first, and
pydantic then rejects the plain string for `List[str]`; and with a base
URL that already carries a query parameter, URL decoding absorbs that
parameter as an extra field, yielding a different message. -/
theorem C8_counterexample :
    parse_x_www_form_urlencoded authenticationRequestSchema
      (encode_x_www_form_urlencoded authenticationRequestSchema promptListMessage)
      = .error "value is not a valid list"
    ∧ parse_url_query authenticationRequestSchema
        (encode_url authenticationRequestSchema scalarAuthMessage baseUrlWithQuery)
      = .ok { values := scalarAuthMessage.values, extras := [("foo", .vstr "bar")] }
    ∧ ({ values := scalarAuthMessage.values, extras := [("foo", .vstr "bar")] } : PyMessage)
        ≠ scalarAuthMessage :=
  ⟨rfl, rfl, by decide⟩

/-- Claim C8 (amended): for every message without extra fields, over a
schema with pairwise distinct field names, whose non-default field
values are all scalar (strings or `None`, so in particular every
list-typed field is at its default), decoding the form encoding yields
the message again; and decoding the URL encoding from the query string
yields the message again for every base URL without query parameters. -/
theorem C8_amended_roundtrip (s : Schema) (m : PyMessage) (b : String)
    (hnodup : (s.fields.map FieldSpec.name).Nodup)
    (hlen : m.values.length = s.fields.length)
    (hextras : m.extras = [])
    (hok : ∀ fv ∈ s.fields.zip m.values, typeMatches fv.1.ftype fv.2 = true ∧
        (fv.1.default ≠ some fv.2 → isScalar fv.2 = true)) :
    parse_x_www_form_urlencoded s (encode_x_www_form_urlencoded s m) = .ok m
    ∧ parse_url_query s (encode_url s m { base := b, query := [], fragment := [] })
      = .ok m :=
  ⟨roundtrip_form s m hnodup hlen hextras hok,
   roundtrip_url s m b hnodup hlen hextras hok⟩

/-- Claim C8 (witness): the amended round trip applied to the concrete
scalar `AuthenticationRequest` message over its schema. -/
theorem C8_amended_roundtrip_witness :
    parse_x_www_form_urlencoded authenticationRequestSchema
      (encode_x_www_form_urlencoded authenticationRequestSchema scalarAuthMessage)
      = .ok scalarAuthMessage
    ∧ parse_url_query authenticationRequestSchema
        (encode_url authenticationRequestSchema scalarAuthMessage
          { base := "https://example.com", query := [], fragment := [] })
      = .ok scalarAuthMessage :=
  C8_amended_roundtrip authenticationRequestSchema scalarAuthMessage
    "https://example.com" (by decide) (by decide) rfl (by decide)
